import Mathlib

/-!
Shallow embedding of the checkout/cart/order core of `src/main.py`
(a Flask storefront).  Amounts are modelled as exact rationals, the
catalog and the order ledger as lists of records, the session cart as a
list of product identifiers, and each route handler as a pure function
on an explicit application state.
-/

namespace Atoz

/-- A row of the `products` table (the columns the core reads:
`id, name, price, discount_price`). -/
structure Product where
  id : Nat
  name : String
  price : Rat
  discount_price : Option Rat
deriving DecidableEq

/-- A row of the `users` table (profile columns touched by checkout). -/
structure User where
  id : Nat
  full_name : Option String
  mobile : Option String
  province : Option String
deriving DecidableEq

/-- A row of the `orders` table.  `status` defaults to `"Pending"` in the
schema; `created_at` is wall-clock time and is not modelled. -/
structure Order where
  id : Nat
  user_id : Nat
  full_name : String
  mobile : String
  address : String
  total_amount : Rat
  items_summary : String
  status : String
deriving DecidableEq

/-- The state a request handler can read and write: the two persisted
tables the core touches plus the session cart. -/
structure AppState where
  products : List Product
  users : List User
  orders : List Order
  cart : List Nat
deriving DecidableEq

/-- The POST form fields of the checkout page.  `request.form[k]` raises
`KeyError` when `k` is absent, hence `Option`. -/
structure CheckoutForm where
  full_name : Option String
  mobile : Option String
  address : Option String
  province : Option String
deriving DecidableEq

/-- Python truthiness test `discount_price or price`: the discount is
used when it is present (not NULL) and not zero, else the base price. -/
def effectivePrice (p : Product) : Rat :=
  match p.discount_price with
  | some d => if d = 0 then p.price else d
  | none => p.price

/-- Lookup in the dict `pmap` built from `SELECT ... WHERE id IN (...)`:
the product with the given id, if any (ids are a primary key). -/
def findById (catalog : List Product) (i : Nat) : Option Product :=
  catalog.find? (fun p => p.id == i)

/-- The products a list of cart identifiers resolves to, in cart order,
identifiers with no match silently dropped. -/
def resolve (catalog : List Product) (ids : List Nat) : List Product :=
  ids.filterMap (findById catalog)

/-- One iteration of the loop in the `/cart` handler: if `i` is in
`pmap`, append the product to `items` and add its effective price to
`total`; otherwise do nothing. -/
def cartStep (catalog : List Product) (acc : List Product × Rat) (i : Nat) :
    List Product × Rat :=
  match findById catalog i with
  | some p => (acc.1 ++ [p], acc.2 + effectivePrice p)
  | none => acc

/-- The `/cart` view: items and total, starting from `[]` and `0`. -/
def cartView (catalog : List Product) (ids : List Nat) : List Product × Rat :=
  ids.foldl (cartStep catalog) ([], 0)

/-- The `/remove_from_cart/<index>` handler:
`if 0 <= index < len(cart): cart.pop(index)`, otherwise no change. -/
def remove_from_cart (cart : List Nat) (index : Int) : List Nat :=
  if 0 ≤ index ∧ index < (cart.length : Int) then cart.eraseIdx index.toNat
  else cart

/-- One iteration of the total/names loop in the `checkout` handler:
`total += (p.discount_price or p.price); names.append(p.name)` for a
resolved id, nothing for an unresolved one. -/
def checkoutStep (catalog : List Product) (acc : Rat × List String) (i : Nat) :
    Rat × List String :=
  match findById catalog i with
  | some p => (acc.1 + effectivePrice p, acc.2 ++ [p.name])
  | none => acc

/-- The total and product-name list the checkout handler computes before
inserting an order. -/
def checkoutTotals (catalog : List Product) (ids : List Nat) :
    Rat × List String :=
  ids.foldl (checkoutStep catalog) (0, [])

/-- AUTOINCREMENT: a fresh order id, larger than every existing one. -/
def nextOrderId (orders : List Order) : Nat :=
  orders.foldl (fun m o => max m o.id) 0 + 1

/-- Outcome of a POST to `/checkout`. -/
inductive CheckoutResult where
  | redirectHome
  | badRequest
  | persistenceError
  | placed
deriving DecidableEq

/-- The POST branch of the `checkout` handler.  `uid` is
`session['user_id']`.  `persistOk` models whether the order INSERT and
the commit succeed; on failure the raised exception propagates before
the profile UPDATE and the cart pop run, and the uncommitted
transaction is discarded when the per-request connection closes, so the
state is unchanged.  Form fields are read (raising `KeyError`, i.e.
`badRequest`, when absent) before any write. -/
def checkoutPost (st : AppState) (form : CheckoutForm) (uid : Nat)
    (persistOk : Bool) : AppState × CheckoutResult :=
  if st.cart = [] then (st, CheckoutResult.redirectHome)
  else
    let tn := checkoutTotals st.products st.cart
    match form.full_name, form.mobile, form.address, form.province with
    | some fn, some mb, some ad, some pv =>
      if persistOk then
        let addr := ad ++ ", " ++ pv
        let o : Order :=
          { id := nextOrderId st.orders, user_id := uid, full_name := fn,
            mobile := mb, address := addr, total_amount := tn.1,
            items_summary := String.intercalate ", " tn.2,
            status := "Pending" }
        let users := st.users.map (fun u =>
          if u.id = uid then
            { u with full_name := some fn, mobile := some mb,
                     province := some pv }
          else u)
        ({ st with orders := st.orders ++ [o], users := users, cart := [] },
         CheckoutResult.placed)
      else (st, CheckoutResult.persistenceError)
    | _, _, _, _ => (st, CheckoutResult.badRequest)

/-- The `/admin/order/status/<id>/<status>` handler:
`UPDATE orders SET status=? WHERE id=?` with no validation of the
supplied status string. -/
def order_status (orders : List Order) (oid : Nat) (status : String) :
    List Order :=
  orders.map (fun o => if o.id = oid then { o with status := status } else o)

/-- The dashboard statistics of the `admin` handler: `COUNT(*)` and
`SUM(total_amount)` over `orders`; SQL `SUM` is NULL on an empty table
and the handler replaces a falsy result by `0`. -/
def aggregate (orders : List Order) : Nat × Rat :=
  let count := orders.length
  let sumOpt : Option Rat :=
    if orders = [] then none else some ((orders.map Order.total_amount).sum)
  let earnings : Rat :=
    match sumOpt with
    | none => 0
    | some s => if s = 0 then 0 else s
  (count, earnings)

/-- Sample product with no discount (price 1000). -/
def pA : Product := { id := 1, name := "A", price := 1000, discount_price := none }

/-- Sample product with a discount (price 500, discount 400). -/
def pB : Product := { id := 2, name := "B", price := 500, discount_price := some 400 }

/-- Sample product with a zero-sentinel discount. -/
def pZ : Product := { id := 3, name := "Z", price := 250, discount_price := some 0 }

/-- Sample application state: catalog `[pA, pB]`, one user, no orders,
cart `[1, 2, 2]`. -/
def demoState : AppState :=
  { products := [pA, pB],
    users := [{ id := 7, full_name := none, mobile := none, province := none }],
    orders := [], cart := [1, 2, 2] }

/-- Sample complete checkout form. -/
def demoForm : CheckoutForm :=
  { full_name := some "Sita", mobile := some "9800000000",
    address := some "Lakeside", province := some "Gandaki" }

/-- Sample persisted order with total 100. -/
def oA : Order :=
  { id := 1, user_id := 7, full_name := "Sita", mobile := "9800000000",
    address := "Lakeside, Gandaki", total_amount := 100,
    items_summary := "A", status := "Pending" }

/-- Sample persisted order with total 250. -/
def oB : Order :=
  { id := 2, user_id := 7, full_name := "Sita", mobile := "9800000000",
    address := "Lakeside, Gandaki", total_amount := 250,
    items_summary := "B", status := "Pending" }

/-- Unrolling the checkout total/names loop over an arbitrary
accumulator. -/
theorem checkoutTotals_loop (c : List Product) (ids : List Nat) :
    ∀ acc : Rat × List String,
      ids.foldl (checkoutStep c) acc =
        (acc.1 + ((resolve c ids).map effectivePrice).sum,
         acc.2 ++ (resolve c ids).map Product.name) := by
  induction ids with
  | nil => intro acc; simp [resolve]
  | cons i ids ih =>
    intro acc
    cases h : findById c i with
    | none =>
      simp [List.foldl_cons, checkoutStep, h, resolve, List.filterMap_cons, ih]
    | some p =>
      simp [List.foldl_cons, checkoutStep, h, resolve, List.filterMap_cons, ih,
        add_assoc]

/-- The total the checkout handler computes is the sum of effective
prices over the resolved cart. -/
theorem checkoutTotals_fst (c : List Product) (ids : List Nat) :
    (checkoutTotals c ids).1 = ((resolve c ids).map effectivePrice).sum := by
  simp [checkoutTotals, checkoutTotals_loop]

/-- The name list the checkout handler computes is the resolved cart's
names in cart order. -/
theorem checkoutTotals_snd (c : List Product) (ids : List Nat) :
    (checkoutTotals c ids).2 = (resolve c ids).map Product.name := by
  simp [checkoutTotals, checkoutTotals_loop]

/-- Unrolling the cart-view loop over an arbitrary accumulator. -/
theorem cartView_loop (c : List Product) (ids : List Nat) :
    ∀ acc : List Product × Rat,
      ids.foldl (cartStep c) acc =
        (acc.1 ++ resolve c ids,
         acc.2 + ((resolve c ids).map effectivePrice).sum) := by
  induction ids with
  | nil => intro acc; simp [resolve]
  | cons i ids ih =>
    intro acc
    cases h : findById c i with
    | none =>
      simp [List.foldl_cons, cartStep, h, resolve, List.filterMap_cons, ih]
    | some p =>
      simp [List.foldl_cons, cartStep, h, resolve, List.filterMap_cons, ih,
        add_assoc]

/-- C2: the `/cart` view lists exactly the cart identifiers resolved
against the catalog at read time, in cart order (identifiers with no
match dropped, duplicates contributing once per occurrence), and its
total is the sum of the effective prices of those resolved products. -/
theorem cart_view_total (catalog : List Product) (ids : List Nat) :
    cartView catalog ids =
      (ids.filterMap (findById catalog),
       ((ids.filterMap (findById catalog)).map effectivePrice).sum) := by
  have h := cartView_loop catalog ids ([], 0)
  simpa [cartView, resolve] using h

/-- C3: the effective price is the discount price when it is present,
non-null and not the zero sentinel; it is the base price when the
discount is absent, and also when the discount is the zero sentinel. -/
theorem effectivePrice_cases (p : Product) :
    (∀ d : Rat, p.discount_price = some d → d ≠ 0 → effectivePrice p = d) ∧
    (p.discount_price = none → effectivePrice p = p.price) ∧
    (p.discount_price = some 0 → effectivePrice p = p.price) := by
  refine ⟨fun d hd hne => ?_, fun h => ?_, fun h => ?_⟩ <;>
    simp [effectivePrice, *]

/-- Witness for C3 at concrete products: discount 400 is charged, the
no-discount product falls back to its price, and a zero discount falls
back to the price. -/
theorem effectivePrice_cases_witness :
    effectivePrice pB = 400 ∧ effectivePrice pA = 1000 ∧
      effectivePrice pZ = 250 :=
  ⟨(effectivePrice_cases pB).1 400 rfl (by norm_num),
   (effectivePrice_cases pA).2.1 rfl,
   (effectivePrice_cases pZ).2.2 rfl⟩

/-- C7: removing at an in-range index deletes exactly the entry at that
position; an out-of-range index (negative or at least the length)
leaves the cart unchanged. -/
theorem remove_from_cart_spec (cart : List Nat) (i : Int) :
    (0 ≤ i → i < (cart.length : Int) →
      remove_from_cart cart i =
        cart.take i.toNat ++ cart.drop (i.toNat + 1)) ∧
    (i < 0 ∨ (cart.length : Int) ≤ i → remove_from_cart cart i = cart) := by
  constructor
  · intro h0 hl
    rw [remove_from_cart, if_pos ⟨h0, hl⟩, List.eraseIdx_eq_take_drop_succ]
  · intro h
    rw [remove_from_cart, if_neg]
    rcases h with h | h
    · exact fun hc => absurd h (not_lt.mpr hc.1)
    · exact fun hc => absurd h (not_le.mpr hc.2)

/-- Witness for C7: removing index 1 from `[5, 6, 7]` yields `[5, 7]`,
and removing index 5 (out of range) leaves the cart unchanged. -/
theorem remove_from_cart_spec_witness :
    remove_from_cart [5, 6, 7] 1 =
        List.take (Int.toNat 1) [5, 6, 7] ++
          List.drop (Int.toNat 1 + 1) [5, 6, 7] ∧
      remove_from_cart [5, 6, 7] 5 = [5, 6, 7] :=
  ⟨(remove_from_cart_spec [5, 6, 7] 1).1 (by decide) (by decide),
   (remove_from_cart_spec [5, 6, 7] 5).2 (Or.inr (by decide))⟩

/-- The committed transition of the checkout handler in closed form:
with a non-empty cart and all form fields present, the handler appends
the freshly built order, rewrites the user's profile row, and empties
the cart. -/
theorem checkoutPost_eq_committed (st : AppState) (form : CheckoutForm)
    (uid : Nat) (fn mb ad pv : String) (hc : st.cart ≠ [])
    (hfn : form.full_name = some fn) (hmb : form.mobile = some mb)
    (had : form.address = some ad) (hpv : form.province = some pv) :
    checkoutPost st form uid true =
      ({ st with
          orders := st.orders ++
            [{ id := nextOrderId st.orders, user_id := uid,
               full_name := fn, mobile := mb, address := ad ++ ", " ++ pv,
               total_amount := (checkoutTotals st.products st.cart).1,
               items_summary :=
                 String.intercalate ", "
                   (checkoutTotals st.products st.cart).2,
               status := "Pending" }],
          users := st.users.map (fun u =>
            if u.id = uid then
              { u with full_name := some fn, mobile := some mb,
                       province := some pv }
            else u),
          cart := [] },
       CheckoutResult.placed) := by
  unfold checkoutPost
  rw [if_neg hc, hfn, hmb, had, hpv]
  exact rfl

/-- C1: a POST checkout on a non-empty cart with all four shipping
fields present appends exactly one order whose total is the sum of
effective prices over the resolved cart, whose items summary is the
comma-joined resolved names in cart order, whose status is `Pending`,
and leaves the session cart empty. -/
theorem checkout_commits_order (st : AppState) (form : CheckoutForm)
    (uid : Nat) (fn mb ad pv : String) (hc : st.cart ≠ [])
    (hfn : form.full_name = some fn) (hmb : form.mobile = some mb)
    (had : form.address = some ad) (hpv : form.province = some pv) :
    (checkoutPost st form uid true).2 = CheckoutResult.placed ∧
    ∃ o : Order,
      (checkoutPost st form uid true).1.orders = st.orders ++ [o] ∧
      o.total_amount = ((resolve st.products st.cart).map effectivePrice).sum ∧
      o.items_summary =
        String.intercalate ", "
          ((resolve st.products st.cart).map Product.name) ∧
      o.status = "Pending" ∧
      (checkoutPost st form uid true).1.cart = [] := by
  rw [checkoutPost_eq_committed st form uid fn mb ad pv hc hfn hmb had hpv]
  exact ⟨rfl, _, rfl, checkoutTotals_fst st.products st.cart,
    by rw [checkoutTotals_snd], rfl, rfl⟩

/-- Witness for C1: on the sample state (catalog `[pA, pB]`, cart
`[1, 2, 2]`) with the sample complete form, checkout places exactly one
pending order with the computed total and summary and empties the
cart. -/
theorem checkout_commits_order_witness :
    (checkoutPost demoState demoForm 7 true).2 = CheckoutResult.placed ∧
    ∃ o : Order,
      (checkoutPost demoState demoForm 7 true).1.orders =
        demoState.orders ++ [o] ∧
      o.total_amount =
        ((resolve demoState.products demoState.cart).map effectivePrice).sum ∧
      o.items_summary =
        String.intercalate ", "
          ((resolve demoState.products demoState.cart).map Product.name) ∧
      o.status = "Pending" ∧
      (checkoutPost demoState demoForm 7 true).1.cart = [] :=
  checkout_commits_order demoState demoForm 7 "Sita" "9800000000"
    "Lakeside" "Gandaki" (by decide) rfl rfl rfl rfl

/-- C4: when persisting the order fails, the raised error propagates
before the profile update and the cart pop, so the whole state (orders,
users, cart) is unchanged and the checkout reports a persistence
error. -/
theorem checkout_persist_fail_no_effect (st : AppState)
    (form : CheckoutForm) (uid : Nat) (fn mb ad pv : String)
    (hc : st.cart ≠ [])
    (hfn : form.full_name = some fn) (hmb : form.mobile = some mb)
    (had : form.address = some ad) (hpv : form.province = some pv) :
    checkoutPost st form uid false = (st, CheckoutResult.persistenceError) := by
  simp [checkoutPost, if_neg hc, hfn, hmb, had, hpv]

/-- Witness for C4 at the sample state and form. -/
theorem checkout_persist_fail_no_effect_witness :
    checkoutPost demoState demoForm 7 false =
      (demoState, CheckoutResult.persistenceError) :=
  checkout_persist_fail_no_effect demoState demoForm 7 "Sita" "9800000000"
    "Lakeside" "Gandaki" (by decide) rfl rfl rfl rfl

/-- C5: when any required shipping field is missing, no order is
created and the state (orders, cart, user profiles) is unchanged; the
attempt never reaches the placed outcome. -/
theorem checkout_missing_field_no_effect (st : AppState)
    (form : CheckoutForm) (uid : Nat) (persistOk : Bool)
    (hmiss : form.full_name = none ∨ form.mobile = none ∨
      form.address = none ∨ form.province = none) :
    (checkoutPost st form uid persistOk).1 = st ∧
    (checkoutPost st form uid persistOk).2 ≠ CheckoutResult.placed := by
  by_cases hc : st.cart = []
  · simp [checkoutPost, hc]
  · rcases hmiss with h | h | h | h <;>
      cases hfn : form.full_name <;> cases hmb : form.mobile <;>
      cases had : form.address <;> cases hpv : form.province <;>
      simp_all [checkoutPost, if_neg hc]

/-- Witness for C5: a form missing the address field changes nothing on
the sample state. -/
theorem checkout_missing_field_no_effect_witness :
    (checkoutPost demoState
        { full_name := some "Sita", mobile := some "9800000000",
          address := none, province := some "Gandaki" } 7 true).1 =
      demoState ∧
    (checkoutPost demoState
        { full_name := some "Sita", mobile := some "9800000000",
          address := none, province := some "Gandaki" } 7 true).2 ≠
      CheckoutResult.placed :=
  checkout_missing_field_no_effect demoState
    { full_name := some "Sita", mobile := some "9800000000",
      address := none, province := some "Gandaki" } 7 true
    (Or.inr (Or.inr (Or.inl rfl)))

/-- C6: entering checkout with an empty cart short-circuits to the
catalog home, creating no order and modifying nothing, whatever the
form, user or persistence outcome. -/
theorem checkout_empty_cart_redirect (st : AppState) (form : CheckoutForm)
    (uid : Nat) (persistOk : Bool) (hc : st.cart = []) :
    checkoutPost st form uid persistOk = (st, CheckoutResult.redirectHome) := by
  simp [checkoutPost, hc]

/-- Witness for C6: an empty-cart state redirects home unchanged. -/
theorem checkout_empty_cart_redirect_witness :
    checkoutPost { demoState with cart := [] } demoForm 7 true =
      ({ demoState with cart := [] }, CheckoutResult.redirectHome) :=
  checkout_empty_cart_redirect { demoState with cart := [] } demoForm 7 true
    rfl

/-- C10: the persisted order's address snapshot is the submitted
address concatenated with a comma-space and the submitted province, not
the bare address. -/
theorem checkout_address_folds_province (st : AppState)
    (form : CheckoutForm) (uid : Nat) (fn mb ad pv : String)
    (hc : st.cart ≠ [])
    (hfn : form.full_name = some fn) (hmb : form.mobile = some mb)
    (had : form.address = some ad) (hpv : form.province = some pv) :
    ∃ o : Order,
      (checkoutPost st form uid true).1.orders = st.orders ++ [o] ∧
      o.address = ad ++ ", " ++ pv := by
  rw [checkoutPost_eq_committed st form uid fn mb ad pv hc hfn hmb had hpv]
  exact ⟨_, rfl, rfl⟩

/-- Witness for C10: the sample checkout stores the address
`Lakeside, Gandaki`, the submitted address with the province folded
in. -/
theorem checkout_address_folds_province_witness :
    ∃ o : Order,
      (checkoutPost demoState demoForm 7 true).1.orders =
        demoState.orders ++ [o] ∧
      o.address = "Lakeside" ++ ", " ++ "Gandaki" :=
  checkout_address_folds_province demoState demoForm 7 "Sita" "9800000000"
    "Lakeside" "Gandaki" (by decide) rfl rfl rfl rfl

/-- C8 divergence: the status route stores any supplied string
verbatim; updating order 1 with `Shipped` leaves a persisted order
whose status is neither `Pending` nor `Delivered`, so the code performs
no validation. -/
theorem order_status_stores_unrecognized :
    (order_status [oA] 1 "Shipped").map Order.status = ["Shipped"] ∧
      ("Shipped" : String) ≠ "Pending" ∧
      ("Shipped" : String) ≠ "Delivered" :=
  ⟨rfl, by decide, by decide⟩

/-- C9: the dashboard aggregate returns the order count and the sum of
total amounts over all persisted orders, `0` (not null) when there are
none; on two orders with totals 100 and 250 it returns count 2 and
earnings 350. -/
theorem aggregate_spec :
    (∀ orders : List Order,
      aggregate orders =
        (orders.length, (orders.map Order.total_amount).sum)) ∧
    aggregate [] = (0, 0) ∧
    aggregate [oA, oB] = (2, 350) := by
  have hgen : ∀ orders : List Order,
      aggregate orders =
        (orders.length, (orders.map Order.total_amount).sum) := by
    intro orders
    by_cases h : orders = []
    · subst h; simp [aggregate]
    · by_cases hs : (orders.map Order.total_amount).sum = 0
      · simp [aggregate, h, hs]
      · simp [aggregate, h, hs]
  refine ⟨hgen, by simpa using hgen [], ?_⟩
  rw [hgen [oA, oB]]
  norm_num [oA, oB]

end Atoz
